import Mathlib

/-!
Verification of the `django_app` repository: the `home` handler and the
`log_request_response` helper of `src/django_app/views.py`, together with
the data store they call into.  Python strings become Lean `String`s,
byte strings become `List Nat` (each entry one byte), a Python value that
may raise becomes `Except Unit`, and Python dictionaries become
association lists with distinct keys.  Wall-clock time (`time.time()`,
the `processing_duration_ms` field) is not modelled: no property below
concerns it.
-/

namespace DjangoApp

/-- Characters Python's `str.strip()` (with no argument) removes: exactly
the code points for which `str.isspace` holds. -/
def isPyWhitespace (c : Char) : Bool :=
  (0x09 ≤ c.toNat && c.toNat ≤ 0x0D) ||
  (0x1C ≤ c.toNat && c.toNat ≤ 0x1F) ||
  c.toNat = 0x20 || c.toNat = 0x85 || c.toNat = 0xA0 || c.toNat = 0x1680 ||
  (0x2000 ≤ c.toNat && c.toNat ≤ 0x200A) ||
  c.toNat = 0x2028 || c.toNat = 0x2029 || c.toNat = 0x202F ||
  c.toNat = 0x205F || c.toNat = 0x3000

/-- `str.strip()` on a list of characters: drop whitespace from both ends. -/
def stripList (l : List Char) : List Char :=
  ((l.dropWhile isPyWhitespace).reverse.dropWhile isPyWhitespace).reverse

/-- Python's `s.strip()`. -/
def pyStrip (s : String) : String := ⟨stripList s.data⟩

/-- Value of a decimal digit run as Python's `int` reads it, allowing a
single underscore between two digits, as in `int("1_0") == 10`.
`acc` is the value of the digits already consumed. -/
def pyDigitsAux : Nat → List Char → Option Nat
  | acc, [] => some acc
  | acc, c :: cs =>
    if c.isDigit then pyDigitsAux (10 * acc + (c.toNat - 48)) cs
    else if c = '_' then
      match cs with
      | c' :: cs' =>
        if c'.isDigit then pyDigitsAux (10 * acc + (c'.toNat - 48)) cs' else none
      | [] => none
    else none

/-- Python's `int(s)` for a string argument: strip whitespace, read an
optional sign, then a non-empty digit run; `none` models the
`ValueError` raised on any other shape. -/
def parseIntPy (s : String) : Option Int :=
  match stripList s.data with
  | [] => none
  | c :: cs =>
    if c = '+' then
      match cs with
      | [] => none
      | c' :: _ => if c'.isDigit then (pyDigitsAux 0 cs).map Int.ofNat else none
    else if c = '-' then
      match cs with
      | [] => none
      | c' :: _ => if c'.isDigit then (pyDigitsAux 0 cs).map (fun n => -(n : Int)) else none
    else if c.isDigit then (pyDigitsAux 0 (c :: cs)).map Int.ofNat
    else none

/-- A byte `0x80 ≤ b ≤ 0xBF`, i.e. a UTF-8 continuation byte. -/
def isCont (b : Nat) : Bool := 0x80 ≤ b && b ≤ 0xBF

/-- Strict UTF-8 decoding of a byte sequence, as Python's
`bytes.decode("utf-8")`: rejects continuation bytes in lead position,
overlong encodings, surrogate code points and code points above
`U+10FFFF`.  `none` models the `UnicodeDecodeError`. -/
def utf8DecodeChars : List Nat → Option (List Char)
  | [] => some []
  | b :: rest =>
    if b < 0x80 then
      (utf8DecodeChars rest).map (Char.ofNat b :: ·)
    else if b < 0xC2 then none
    else if b < 0xE0 then
      match rest with
      | b1 :: rest' =>
        if isCont b1 then
          (utf8DecodeChars rest').map (Char.ofNat ((b - 0xC0) * 0x40 + (b1 - 0x80)) :: ·)
        else none
      | [] => none
    else if b < 0xF0 then
      match rest with
      | b1 :: b2 :: rest' =>
        if isCont b1 && isCont b2 then
          let cp := (b - 0xE0) * 0x1000 + (b1 - 0x80) * 0x40 + (b2 - 0x80)
          if 0x800 ≤ cp && !(0xD800 ≤ cp && cp ≤ 0xDFFF) then
            (utf8DecodeChars rest').map (Char.ofNat cp :: ·)
          else none
        else none
      | _ => none
    else if b < 0xF5 then
      match rest with
      | b1 :: b2 :: b3 :: rest' =>
        if isCont b1 && isCont b2 && isCont b3 then
          let cp := (b - 0xF0) * 0x40000 + (b1 - 0x80) * 0x1000 +
            (b2 - 0x80) * 0x40 + (b3 - 0x80)
          if 0x10000 ≤ cp && cp ≤ 0x10FFFF then
            (utf8DecodeChars rest').map (Char.ofNat cp :: ·)
          else none
        else none
      | _ => none
    else none

/-- Python's `bs.decode("utf-8")`; `none` is the `UnicodeDecodeError`. -/
def decodeUtf8 (bs : List Nat) : Option String :=
  (utf8DecodeChars bs).map List.asString

/-- First binding of a key in an association list: `d.get(k)` returning
`None` when absent (Python dictionaries hold each key once; we model them
as association lists and read the first binding). -/
def assocGet (m : List (String × String)) (k : String) : Option String :=
  (m.find? (fun kv => kv.1 = k)).map (·.2)

/-- `request.POST.get(k, '')`: the bound value, or `''` when absent. -/
def formGet (post : List (String × String)) (k : String) : String :=
  (assocGet post k).getD ""

/-- The filter the source applies to `request.META`:
`k.startswith('HTTP_') or k in ['CONTENT_TYPE', 'CONTENT_LENGTH']`
(`startswith` tested on the character sequence). -/
def keyIsHeader (k : String) : Bool :=
  "HTTP_".data.isPrefixOf k.data || k = "CONTENT_TYPE" || k = "CONTENT_LENGTH"

/-- The incoming Django `HttpRequest` as `log_request_response` and `home`
read it.  `body` is `none` when the object has no `body` attribute
(`hasattr` is false), `some (.error ())` when reading it raises (the
`RawPostDataException` case the source comments on), `some (.ok bs)` when
it yields the bytes `bs`.  `url` is the value of
`request.build_absolute_uri()`. -/
structure HttpRequest where
  method : String
  url : String
  meta : List (String × String)
  post : List (String × String)
  body : Option (Except Unit (List Nat))

/-- The outgoing response as the logger reads it.  `headers` is `none`
when the object has no `items` attribute, `content` is `none` when it has
no `content` attribute; otherwise they hold the header pairs and the body
bytes. -/
structure HttpResponse where
  status_code : Nat
  headers : Option (List (String × String))
  content : Option (List Nat)

/-- The fields of the JSON object `log_request_response` serializes,
`processing_duration_ms` excepted (wall-clock time is not modelled).
`response_body` is `none` when the `"response_body"` key is absent from
the object. -/
structure LogData where
  method : String
  url : String
  request_headers : List (String × String)
  request_body_size : Int
  response_status : Nat
  response_headers : List (String × String)
  response_body_size : Nat
  response_body : Option String
  deriving DecidableEq

/-- The `try`/`except` block computing `request_body_size` in
`log_request_response`: `len(request.body) if hasattr(request, 'body')
else 0`, and when reading the body raises,
`int(request.META.get('CONTENT_LENGTH', 0))` — where that `int` call
itself raises (escaping the function) when the header value is not a
numeral. -/
def requestBodySizeResult (request : HttpRequest) : Except Unit Int :=
  match request.body with
  | none => .ok 0
  | some (.ok bs) => .ok (bs.length : Int)
  | some (.error _) =>
    match assocGet request.meta "CONTENT_LENGTH" with
    | none => .ok 0
    | some s =>
      match parseIntPy s with
      | some n => .ok n
      | none => .error ()

/-- The conditional `response_body` attachment of `log_request_response`:
when `status_code >= 400` and the response has `content`, the field holds
`response.content.decode('utf-8')`, whose `UnicodeDecodeError`
propagates; otherwise the field is absent (`none`). -/
def responseBodyField (response : HttpResponse) : Except Unit (Option String) :=
  if response.status_code ≥ 400 then
    match response.content with
    | none => .ok none
    | some bs =>
      match decodeUtf8 bs with
      | some s => .ok (some s)
      | none => .error ()
  else .ok none

/-- `src/django_app/views.py`, `log_request_response`: builds the log
record for one request/response pair.  `.error ()` models an exception
escaping the function; `.ok rec` models one `logger.info` call emitting
`rec`.  Step by step from the source: filter `request.META` to keys
starting with `HTTP_` or equal to `CONTENT_TYPE`/`CONTENT_LENGTH`; take
`dict(response.items())` or `{}`; compute the request body size
(`requestBodySizeResult`); take `len(response.content)` or `0`; and
attach the decoded response body when required (`responseBodyField`). -/
def log_request_response (request : HttpRequest) (response : HttpResponse) :
    Except Unit LogData := do
  let request_headers := request.meta.filter (fun kv => keyIsHeader kv.1)
  let response_headers := response.headers.getD []
  let request_body_size ← requestBodySizeResult request
  let response_body_size := (response.content.map List.length).getD 0
  let response_body ← responseBodyField response
  pure
    { method := request.method
      url := request.url
      request_headers := request_headers
      request_body_size := request_body_size
      response_status := response.status_code
      response_headers := response_headers
      response_body_size := response_body_size
      response_body := response_body }

/-- A persisted `Demo` row: `id`, `name`, `description`. -/
structure Demo where
  id : Nat
  name : String
  description : String
  deriving DecidableEq

/-- Modelled from the spec: the `Demo` model (`django_app/models.py`) is
not among the source files; per the spec the DataStore is a relational
table whose `id` is assigned by the store on creation, monotonically
increasing.  `demos` holds the rows in insertion order and `nextId` is
the next identifier the store will assign. -/
structure Store where
  demos : List Demo
  nextId : Nat
  deriving DecidableEq

/-- Modelled from the spec: `DataStore.create(name, description)`
(`Demo.objects.create` in the source) appends one row with a fresh,
larger id. -/
def Store.create (s : Store) (name description : String) : Store :=
  { demos := s.demos ++ [⟨s.nextId, name, description⟩], nextId := s.nextId + 1 }

/-- Descending-id order on rows: `a` comes no later than `b` when
`b.id ≤ a.id`. -/
def demoGE (a b : Demo) : Prop := b.id ≤ a.id

instance : DecidableRel demoGE := fun _ _ => Nat.decLe _ _

instance : IsTotal Demo demoGE := ⟨fun a b => Nat.le_total b.id a.id⟩

instance : IsTrans Demo demoGE := ⟨fun _ _ _ hab hbc => Nat.le_trans hbc hab⟩

/-- Modelled from the spec: `Demo.objects.all().order_by('-id')`, the
rows sorted by id descending. -/
def orderByIdDesc (l : List Demo) : List Demo := List.insertionSort demoGE l

/-- The response `home` returns: `redirect('home')` (HTTP 302) or
`render(request, 'django_app/home.html', context)` (HTTP 200) with the
context's `demos` sequence and optional `error` string. -/
inductive HomeResult where
  | redirect302 (target : String)
  | page200 (demos : List Demo) (error : Option String)
  deriving DecidableEq

/-- The HTTP status of the response: Django's `redirect` answers 302 and
`render` answers 200. -/
def HomeResult.status : HomeResult → Nat
  | .redirect302 _ => 302
  | .page200 _ _ => 200

/-- Modelled from the spec: the template `django_app/home.html` is not
among the source files; per the spec the rendered list page shows the
records and, when set, the inline error message, so the error string is
a literal substring of the rendered body. -/
def renderBody (demos : List Demo) (error : Option String) : String :=
  "HelloDB Demo " ++ String.intercalate " "
    (demos.map (fun d => d.name ++ ": " ++ d.description)) ++
  " " ++ error.getD "" ++ " Add New Demo Record"

/-- The body text of the response, for the render branch. -/
def HomeResult.bodyText : HomeResult → Option String
  | .redirect302 _ => none
  | .page200 demos error => some (renderBody demos error)

/-- The exact inline validation message of the source. -/
def requiredError : String := "Both name and description are required."

/-- `src/django_app/views.py`, `home`: on POST, read and strip the two
form fields; when both are non-empty (Python truthiness of a string),
create the record and redirect to `home`; otherwise re-fetch the list and
render the page with the inline error.  On any other method, fetch the
list and render the page.  Returns the updated store and the response.
(The source then passes the response through `log_request_response`;
that call is verified separately on `log_request_response` itself.) -/
def home (store : Store) (request : HttpRequest) : Store × HomeResult :=
  if request.method = "POST" then
    let name := pyStrip (formGet request.post "name")
    let description := pyStrip (formGet request.post "description")
    if name ≠ "" && description ≠ "" then
      (store.create name description, .redirect302 "home")
    else
      (store, .page200 (orderByIdDesc store.demos) (some requiredError))
  else
    (store, .page200 (orderByIdDesc store.demos) none)

/-! ### Properties of `pyStrip` -/

theorem stripList_eq_rdropWhile (l : List Char) :
    stripList l = List.rdropWhile isPyWhitespace (l.dropWhile isPyWhitespace) := rfl

theorem stripList_head_not (l : List Char) (a : Char) (t : List Char)
    (h : stripList l = a :: t) : isPyWhitespace a = false := by
  obtain ⟨u, hu⟩ :=
    List.rdropWhile_prefix isPyWhitespace (l.dropWhile isPyWhitespace)
  rw [stripList_eq_rdropWhile] at h
  rw [h] at hu
  have hne : l.dropWhile isPyWhitespace ≠ [] := by
    intro hnil
    rw [hnil] at hu
    simp at hu
  have h2 := List.head?_dropWhile_not isPyWhitespace l
  have h3 : (l.dropWhile isPyWhitespace).head? = some a := by
    rw [← hu]
    rfl
  rw [h3] at h2
  exact h2

theorem stripList_idem (l : List Char) :
    stripList (stripList l) = stripList l := by
  have h1 : (stripList l).dropWhile isPyWhitespace = stripList l := by
    rcases h : stripList l with _ | ⟨a, t⟩
    · rfl
    · rw [List.dropWhile_cons_of_neg]
      simp [stripList_head_not l a t h]
  calc stripList (stripList l)
      = List.rdropWhile isPyWhitespace ((stripList l).dropWhile isPyWhitespace) := rfl
    _ = List.rdropWhile isPyWhitespace (stripList l) := by rw [h1]
    _ = List.rdropWhile isPyWhitespace
          (List.rdropWhile isPyWhitespace (l.dropWhile isPyWhitespace)) := rfl
    _ = List.rdropWhile isPyWhitespace (l.dropWhile isPyWhitespace) :=
        List.rdropWhile_idempotent _ _
    _ = stripList l := rfl

theorem pyStrip_idem (s : String) : pyStrip (pyStrip s) = pyStrip s :=
  congrArg String.mk (stripList_idem s.data)

theorem pyStrip_empty : pyStrip "" = "" := rfl

/-! ### Characterizing the logger -/

theorem log_eq_ok_iff (request : HttpRequest) (response : HttpResponse) (rec : LogData) :
    log_request_response request response = .ok rec ↔
      ∃ rbs rb, requestBodySizeResult request = .ok rbs ∧
        responseBodyField response = .ok rb ∧
        rec = { method := request.method, url := request.url,
                request_headers := request.meta.filter (fun kv => keyIsHeader kv.1),
                request_body_size := rbs,
                response_status := response.status_code,
                response_headers := response.headers.getD [],
                response_body_size := (response.content.map List.length).getD 0,
                response_body := rb } := by
  cases hA : requestBodySizeResult request with
  | error e =>
    cases e
    simp [log_request_response, hA, Bind.bind, Except.bind]
  | ok rbs =>
    cases hB : responseBodyField response with
    | error e =>
      cases e
      simp [log_request_response, hA, hB, Bind.bind, Except.bind]
    | ok rb =>
      simp only [log_request_response, hA, hB, Bind.bind, Except.bind, pure,
        Except.pure, Except.ok.injEq]
      constructor
      · intro h
        exact ⟨rbs, rb, rfl, rfl, h.symm⟩
      · rintro ⟨rbs', rb', hA', hB', hrec⟩
        cases hA'
        cases hB'
        exact hrec.symm

/-! ### Characterizing the handler -/

theorem home_post_valid (store : Store) (request : HttpRequest)
    (hm : request.method = "POST")
    (hn : pyStrip (formGet request.post "name") ≠ "")
    (hd : pyStrip (formGet request.post "description") ≠ "") :
    home store request =
      (store.create (pyStrip (formGet request.post "name"))
        (pyStrip (formGet request.post "description")), .redirect302 "home") := by
  simp [home, hm, hn, hd]

theorem home_post_invalid (store : Store) (request : HttpRequest)
    (hm : request.method = "POST")
    (hinv : pyStrip (formGet request.post "name") = "" ∨
      pyStrip (formGet request.post "description") = "") :
    home store request =
      (store, .page200 (orderByIdDesc store.demos) (some requiredError)) := by
  rcases hinv with h | h <;> simp [home, hm, h]

theorem home_not_post (store : Store) (request : HttpRequest)
    (hm : request.method ≠ "POST") :
    home store request = (store, .page200 (orderByIdDesc store.demos) none) := by
  simp [home, hm]

/-- The persistence invariant of §3 of the spec: every stored row has a
non-empty name and description, both already whitespace-stripped. -/
def StoreInv (s : Store) : Prop :=
  ∀ d ∈ s.demos, d.name ≠ "" ∧ pyStrip d.name = d.name ∧
    d.description ≠ "" ∧ pyStrip d.description = d.description

/-! ### The claims -/

/-- C1: for every POST request whose form fields `name` and `description`
are both non-empty after trimming whitespace, the handler appends exactly
one new `Demo` record holding the trimmed name and description, answers
with a redirect to the list page (HTTP 302), and the record count grows
by exactly 1. -/
theorem post_valid_creates_one_record (store : Store) (request : HttpRequest)
    (hm : request.method = "POST")
    (hn : pyStrip (formGet request.post "name") ≠ "")
    (hd : pyStrip (formGet request.post "description") ≠ "") :
    (home store request).1.demos = store.demos ++
        [⟨store.nextId, pyStrip (formGet request.post "name"),
          pyStrip (formGet request.post "description")⟩] ∧
      (home store request).1.demos.length = store.demos.length + 1 ∧
      (home store request).2 = .redirect302 "home" ∧
      (home store request).2.status = 302 := by
  rw [home_post_valid store request hm hn hd]
  exact ⟨rfl, by simp [Store.create], rfl, rfl⟩

theorem post_valid_creates_one_record_witness :
    (home ⟨[], 1⟩ ⟨"POST", "http://testserver/", [],
        [("name", " A "), ("description", "B")], none⟩).1.demos = [⟨1, "A", "B"⟩] ∧
      (home ⟨[], 1⟩ ⟨"POST", "http://testserver/", [],
        [("name", " A "), ("description", "B")], none⟩).2.status = 302 := by
  have h := post_valid_creates_one_record ⟨[], 1⟩
    ⟨"POST", "http://testserver/", [], [("name", " A "), ("description", "B")], none⟩
    rfl (by decide) (by decide)
  exact ⟨h.1.trans (by decide), h.2.2.2⟩

/-- C2: for every POST request where the trimmed name or the trimmed
description is empty, the handler creates no record and answers status
200, rendering the same page whose body contains the exact string
`"Both name and description are required."`. -/
theorem post_invalid_renders_error (store : Store) (request : HttpRequest)
    (hm : request.method = "POST")
    (hinv : pyStrip (formGet request.post "name") = "" ∨
      pyStrip (formGet request.post "description") = "") :
    (home store request).1 = store ∧
      (home store request).2.status = 200 ∧
      (home store request).2 =
        .page200 (orderByIdDesc store.demos) (some requiredError) ∧
      ∃ a b, (home store request).2.bodyText = some (a ++ requiredError ++ b) := by
  rw [home_post_invalid store request hm hinv]
  exact ⟨rfl, rfl, rfl,
    ⟨"HelloDB Demo " ++ String.intercalate " "
        ((orderByIdDesc store.demos).map (fun d => d.name ++ ": " ++ d.description)) ++ " ",
      " Add New Demo Record", rfl⟩⟩

theorem post_invalid_renders_error_witness :
    (home ⟨[], 1⟩ ⟨"POST", "http://testserver/", [],
        [("name", "A"), ("description", "  ")], none⟩).1 = (⟨[], 1⟩ : Store) ∧
      (home ⟨[], 1⟩ ⟨"POST", "http://testserver/", [],
        [("name", "A"), ("description", "  ")], none⟩).2.status = 200 := by
  have h := post_invalid_renders_error ⟨[], 1⟩
    ⟨"POST", "http://testserver/", [], [("name", "A"), ("description", "  ")], none⟩
    rfl (Or.inr (by decide))
  exact ⟨h.1, h.2.1⟩

/-- C8: for every GET request, the handler answers status 200 with the
list-and-form page whose context holds all records ordered by id
descending (a permutation of the stored rows, sorted newest first), no
error value, and leaves the store unchanged. -/
theorem get_renders_sorted_list (store : Store) (request : HttpRequest)
    (hm : request.method = "GET") :
    (home store request).1 = store ∧
      (home store request).2.status = 200 ∧
      (home store request).2 = .page200 (orderByIdDesc store.demos) none ∧
      List.Perm (orderByIdDesc store.demos) store.demos ∧
      List.Sorted demoGE (orderByIdDesc store.demos) := by
  have hne : request.method ≠ "POST" := by rw [hm]; decide
  rw [home_not_post store request hne]
  exact ⟨rfl, rfl, rfl, List.perm_insertionSort demoGE store.demos,
    List.sorted_insertionSort demoGE store.demos⟩

theorem get_renders_sorted_list_witness :
    (home ⟨[⟨1, "A", "B"⟩, ⟨2, "C", "D"⟩], 3⟩
        ⟨"GET", "http://testserver/", [], [], none⟩).1 =
      (⟨[⟨1, "A", "B"⟩, ⟨2, "C", "D"⟩], 3⟩ : Store) ∧
      (home ⟨[⟨1, "A", "B"⟩, ⟨2, "C", "D"⟩], 3⟩
        ⟨"GET", "http://testserver/", [], [], none⟩).2 =
        .page200 [⟨2, "C", "D"⟩, ⟨1, "A", "B"⟩] none := by
  have h := get_renders_sorted_list ⟨[⟨1, "A", "B"⟩, ⟨2, "C", "D"⟩], 3⟩
    ⟨"GET", "http://testserver/", [], [], none⟩ rfl
  exact ⟨h.1, h.2.2.1.trans (by decide)⟩

/-- C9: the persistence invariant — a `Demo` row is never stored with an
empty name or description: every store the handler can produce from a
store satisfying the invariant satisfies it again, each row's fields
being non-empty and already stripped. -/
theorem home_preserves_store_inv (store : Store) (request : HttpRequest)
    (h : StoreInv store) : StoreInv (home store request).1 := by
  by_cases hm : request.method = "POST"
  · by_cases hn : pyStrip (formGet request.post "name") = ""
    · rw [home_post_invalid store request hm (Or.inl hn)]
      exact h
    · by_cases hd : pyStrip (formGet request.post "description") = ""
      · rw [home_post_invalid store request hm (Or.inr hd)]
        exact h
      · rw [home_post_valid store request hm hn hd]
        intro d hdm
        rcases List.mem_append.mp hdm with hmem | hmem
        · exact h d hmem
        · rcases List.mem_singleton.mp hmem with rfl
          exact ⟨hn, pyStrip_idem _, hd, pyStrip_idem _⟩
  · rw [home_not_post store request hm]
    exact h

theorem home_preserves_store_inv_witness :
    StoreInv (home ⟨[], 1⟩ ⟨"POST", "http://testserver/", [],
      [("name", " A "), ("description", "B")], none⟩).1 :=
  home_preserves_store_inv ⟨[], 1⟩
    ⟨"POST", "http://testserver/", [], [("name", " A "), ("description", "B")], none⟩
    (by intro d hd; simp at hd)

/-- C10: for every POST request whose form data lacks the `name` key or
the `description` key entirely, the missing field defaults to the empty
string and the handler follows the validation-failure path: store
unchanged, status 200, the page rendered with the inline error. -/
theorem post_missing_key_error_path (store : Store) (request : HttpRequest)
    (hm : request.method = "POST")
    (hmiss : assocGet request.post "name" = none ∨
      assocGet request.post "description" = none) :
    (home store request).1 = store ∧
      (home store request).2 =
        .page200 (orderByIdDesc store.demos) (some requiredError) ∧
      (home store request).2.status = 200 := by
  have hinv : pyStrip (formGet request.post "name") = "" ∨
      pyStrip (formGet request.post "description") = "" := by
    rcases hmiss with hk | hk
    · exact Or.inl (by simp [formGet, hk, pyStrip_empty])
    · exact Or.inr (by simp [formGet, hk, pyStrip_empty])
  rw [home_post_invalid store request hm hinv]
  exact ⟨rfl, rfl, rfl⟩

theorem post_missing_key_error_path_witness :
    (home ⟨[], 1⟩ ⟨"POST", "http://testserver/", [],
        [("description", "B")], none⟩).1 = (⟨[], 1⟩ : Store) ∧
      (home ⟨[], 1⟩ ⟨"POST", "http://testserver/", [],
        [("description", "B")], none⟩).2.status = 200 := by
  have h := post_missing_key_error_path ⟨[], 1⟩
    ⟨"POST", "http://testserver/", [], [("description", "B")], none⟩
    rfl (Or.inl (by decide))
  exact ⟨h.1, h.2.2⟩

/-- C3: whenever the response has a content accessor and the logger
emits a record, the record carries a response-body field (equal to the
UTF-8 decoding of the content) exactly when the status is at least 400;
for any status below 400 the field is absent. -/
theorem log_response_body_iff_error_status (request : HttpRequest)
    (response : HttpResponse) (c : List Nat) (rec : LogData)
    (hc : response.content = some c)
    (hok : log_request_response request response = .ok rec) :
    (400 ≤ response.status_code →
      ∃ s, decodeUtf8 c = some s ∧ rec.response_body = some s) ∧
    (response.status_code < 400 → rec.response_body = none) := by
  obtain ⟨rbs, rb, hA, hB, hrec⟩ := (log_eq_ok_iff request response rec).mp hok
  subst hrec
  unfold responseBodyField at hB
  rw [hc] at hB
  by_cases h4 : response.status_code ≥ 400
  · rw [if_pos h4] at hB
    simp only [] at hB
    cases hdec : decodeUtf8 c with
    | none =>
      rw [hdec] at hB
      simp only [] at hB
      exact absurd hB (by simp)
    | some s =>
      rw [hdec] at hB
      simp only [] at hB
      obtain rfl := (Except.ok.inj hB).symm
      exact ⟨fun _ => ⟨s, rfl, rfl⟩, fun hlt => absurd h4 (by omega)⟩
  · rw [if_neg h4] at hB
    obtain rfl := (Except.ok.inj hB).symm
    exact ⟨fun hge => absurd hge h4, fun _ => rfl⟩

theorem log_response_body_iff_error_status_witness :
    (400 ≤ 500 →
      ∃ s, decodeUtf8 [0x62] = some s ∧
        (⟨"GET", "u", [], 0, 500, [], 1, some "b"⟩ : LogData).response_body = some s) ∧
    (500 < 400 →
      (⟨"GET", "u", [], 0, 500, [], 1, some "b"⟩ : LogData).response_body = none) :=
  log_response_body_iff_error_status ⟨"GET", "u", [], [], some (.ok [])⟩
    ⟨500, some [], some [0x62]⟩ [0x62] ⟨"GET", "u", [], 0, 500, [], 1, some "b"⟩
    rfl (by rfl)

/-- C4: the claim that the logger never raises fails on the code — when
the response status is at least 400 and the content is not valid UTF-8,
`response.content.decode('utf-8')` raises `UnicodeDecodeError` with no
handler around it, so `log_request_response` propagates the exception
(modelled as `.error ()`) instead of degrading to a default. -/
theorem log_decode_failure_raises :
    log_request_response ⟨"GET", "http://testserver/", [], [], some (.ok [])⟩
      ⟨500, some [], some [0xFF]⟩ = .error () := by rfl

/-- C5: whenever reading the request body raises and the logger emits a
record, the logged request body size is the integer value of the
declared `CONTENT_LENGTH` header, and 0 when that header is absent. -/
theorem log_body_raises_uses_content_length (request : HttpRequest)
    (response : HttpResponse) (rec : LogData)
    (hb : request.body = some (.error ()))
    (hok : log_request_response request response = .ok rec) :
    (assocGet request.meta "CONTENT_LENGTH" = none ∧ rec.request_body_size = 0) ∨
    (∃ s n, assocGet request.meta "CONTENT_LENGTH" = some s ∧
      parseIntPy s = some n ∧ rec.request_body_size = n) := by
  obtain ⟨rbs, rb, hA, hB, hrec⟩ := (log_eq_ok_iff request response rec).mp hok
  subst hrec
  unfold requestBodySizeResult at hA
  rw [hb] at hA
  simp only [] at hA
  cases hcl : assocGet request.meta "CONTENT_LENGTH" with
  | none =>
    rw [hcl] at hA
    simp only [] at hA
    obtain rfl := (Except.ok.inj hA).symm
    exact Or.inl ⟨rfl, rfl⟩
  | some s =>
    rw [hcl] at hA
    simp only [] at hA
    cases hp : parseIntPy s with
    | none =>
      rw [hp] at hA
      simp only [] at hA
      exact absurd hA (by simp)
    | some n =>
      rw [hp] at hA
      simp only [] at hA
      obtain rfl := (Except.ok.inj hA).symm
      exact Or.inr ⟨s, rbs, rfl, hp, rfl⟩

theorem log_body_raises_uses_content_length_witness :
    (assocGet [("CONTENT_LENGTH", "12")] "CONTENT_LENGTH" = none ∧
      (⟨"POST", "u", [("CONTENT_LENGTH", "12")], 12, 200, [], 0, none⟩ :
        LogData).request_body_size = 0) ∨
    (∃ s n, assocGet [("CONTENT_LENGTH", "12")] "CONTENT_LENGTH" = some s ∧
      parseIntPy s = some n ∧
      (⟨"POST", "u", [("CONTENT_LENGTH", "12")], 12, 200, [], 0, none⟩ :
        LogData).request_body_size = n) :=
  log_body_raises_uses_content_length
    ⟨"POST", "u", [("CONTENT_LENGTH", "12")], [], some (.error ())⟩
    ⟨200, some [], some []⟩
    ⟨"POST", "u", [("CONTENT_LENGTH", "12")], 12, 200, [], 0, none⟩
    rfl (by rfl)

/-- C6: whenever the logger emits a record, the logged request-header
mapping holds exactly the `request.META` entries whose key starts with
`HTTP_` or is `CONTENT_TYPE`/`CONTENT_LENGTH`, unmodified; every other
metadata entry is absent. -/
theorem log_request_headers_filtered (request : HttpRequest)
    (response : HttpResponse) (rec : LogData)
    (hok : log_request_response request response = .ok rec) :
    ∀ k v, ((k, v) ∈ rec.request_headers ↔
      ((k, v) ∈ request.meta ∧ keyIsHeader k = true)) := by
  obtain ⟨rbs, rb, hA, hB, hrec⟩ := (log_eq_ok_iff request response rec).mp hok
  subst hrec
  intro k v
  simp [List.mem_filter]

theorem log_request_headers_filtered_witness :
    (("HTTP_USER_AGENT", "X") ∈
        (⟨"GET", "u", [("HTTP_USER_AGENT", "X"), ("HTTP_X_CUSTOM", "Y")], 0, 200,
          [], 0, none⟩ : LogData).request_headers ↔
      (("HTTP_USER_AGENT", "X") ∈
          [("HTTP_USER_AGENT", "X"), ("HTTP_X_CUSTOM", "Y"), ("SERVER_NAME", "s")] ∧
        keyIsHeader "HTTP_USER_AGENT" = true)) :=
  log_request_headers_filtered
    ⟨"GET", "u", [("HTTP_USER_AGENT", "X"), ("HTTP_X_CUSTOM", "Y"),
      ("SERVER_NAME", "s")], [], some (.ok [])⟩
    ⟨200, some [], some []⟩
    ⟨"GET", "u", [("HTTP_USER_AGENT", "X"), ("HTTP_X_CUSTOM", "Y")], 0, 200,
      [], 0, none⟩
    (by rfl) "HTTP_USER_AGENT" "X"

/-- C7: for a response exposing neither a header-iteration capability nor
a content accessor, the logger emits a record without raising (provided
the request side yields a size), with an empty response-header mapping,
response body size 0, and no body text field regardless of the status. -/
theorem log_missing_response_capabilities (request : HttpRequest)
    (response : HttpResponse) (n : Int)
    (hrb : requestBodySizeResult request = .ok n)
    (hh : response.headers = none) (hc : response.content = none) :
    ∃ rec, log_request_response request response = .ok rec ∧
      rec.response_headers = [] ∧ rec.response_body_size = 0 ∧
      rec.response_body = none := by
  have hB : responseBodyField response = .ok none := by
    by_cases h4 : response.status_code ≥ 400 <;>
      simp [responseBodyField, hc, h4]
  exact ⟨_, (log_eq_ok_iff request response _).mpr ⟨n, none, hrb, hB, rfl⟩,
    by simp [hh], by simp [hc], rfl⟩

theorem log_missing_response_capabilities_witness :
    ∃ rec, log_request_response ⟨"GET", "u", [], [], some (.ok [])⟩
        ⟨500, none, none⟩ = .ok rec ∧
      rec.response_headers = [] ∧ rec.response_body_size = 0 ∧
      rec.response_body = none :=
  log_missing_response_capabilities ⟨"GET", "u", [], [], some (.ok [])⟩
    ⟨500, none, none⟩ 0 (by rfl) rfl rfl

end DjangoApp
